import Mathlib

/-!
Shallow embedding of the session-lifecycle core of the gotrue-rs client
library (src/client.rs, src/session.rs, src/user.rs, src/lib.rs).

The Gateway (the Api layer, an external collaborator per the spec) is
modelled as an oracle: each client operation receives the Gateway's
response for its single network call as an explicit parameter, and
returns, alongside the domain result and the updated client state, the
list of Gateway calls it performed.  Each recorded call carries the
client state at the moment the call was issued, so that statements such
as "the session is cleared before the Gateway is contacted" and "no
Gateway operation is invoked" are expressible.
-/

namespace GoTrue

/-- JSON values, standing in for serde_json::Value.  Numbers are modelled
as integers; the payloads the client decodes only use integral numbers. -/
inductive Json where
  | null : Json
  | bool : Bool → Json
  | num : Int → Json
  | str : String → Json
  | arr : List Json → Json
  | obj : List (String × Json) → Json
deriving Repr

/-- Field lookup in a JSON object (first occurrence), none otherwise. -/
def Json.getField : Json → String → Option Json
  | .obj fields, key => fields.lookup key
  | _, _ => none

/-- Decode a JSON string, as serde does for a required String field. -/
def Json.asString : Json → Option String
  | .str s => some s
  | _ => none

/-- Decode a JSON number into an i32, as serde does for an i32 field. -/
def Json.asInt32 : Json → Option Int
  | .num n => if -2147483648 ≤ n ∧ n < 2147483648 then some n else none
  | _ => none

/-- Decode a required field: the field must be present and decode. -/
def decodeReq (dec : Json → Option α) : Option Json → Option α
  | none => none
  | some v => dec v

/-- Decode an Option field the way serde derive does: a missing field and
an explicit null both give none; a present non-null value must decode. -/
def decodeOpt (dec : Json → Option α) : Option Json → Option (Option α)
  | none => some none
  | some .null => some none
  | some v => (dec v).map some

/-- Decode a JSON array elementwise, as serde does for a Vec field. -/
def decodeList (dec : Json → Option α) : Json → Option (List α)
  | .arr xs => xs.mapM dec
  | _ => none

/-- Monadic bind on Option (serde's and-then chaining of field decodes),
kept out of line so that code generation for the long decode chains below
stays linear. -/
@[noinline] def obind (x : Option α) (f : α → Option β) : Option β :=
  match x with
  | none => none
  | some a => f a

/-- UserIdentity from src/user.rs. -/
structure UserIdentity where
  id : String
  user_id : String
  identity_data : Json
  provider : String
  created_at : String
  last_sign_in_at : String
  updated_at : Option String
deriving Repr

/-- User from src/user.rs. -/
structure User where
  id : String
  app_metadata : Json
  user_metadata : Json
  aud : String
  confirmation_sent_at : Option String
  recovery_sent_at : Option String
  email_change_sent_at : Option String
  new_email : Option String
  invited_at : Option String
  action_link : Option String
  email : Option String
  phone : Option String
  created_at : String
  confirmed_at : Option String
  email_confirmed_at : Option String
  phone_confirmed_at : Option String
  last_sign_in_at : Option String
  role : Option String
  updated_at : Option String
  identities : Option (List UserIdentity)
deriving Repr

/-- UserAttributes from src/user.rs (an update request payload). -/
structure UserAttributes where
  email : Option String
  phone : Option String
  password : Option String
  email_change_token : Option String
  data : Option Json
deriving Repr

/-- UserUpdate from src/user.rs (the decoded update-user response). -/
structure UserUpdate where
  id : String
  email : String
  new_email : String
  email_change_sent_at : String
  created_at : String
  updated_at : String
deriving Repr

/-- Session from src/session.rs. -/
structure Session where
  provider_token : Option String
  access_token : String
  token_type : String
  expires_in : Option Int
  refresh_token : Option String
  user : Option User
deriving Repr

/-- Derived serde Deserialize for UserIdentity: required String fields,
an any-JSON identity_data field, and an optional updated_at. -/
def UserIdentity.fromValue (v : Json) : Option UserIdentity :=
  obind (decodeReq Json.asString (v.getField "id")) fun id =>
  obind (decodeReq Json.asString (v.getField "user_id")) fun user_id =>
  obind (v.getField "identity_data") fun identity_data =>
  obind (decodeReq Json.asString (v.getField "provider")) fun provider =>
  obind (decodeReq Json.asString (v.getField "created_at")) fun created_at =>
  obind (decodeReq Json.asString (v.getField "last_sign_in_at")) fun last_sign_in_at =>
  obind (decodeOpt Json.asString (v.getField "updated_at")) fun updated_at =>
  some ⟨id, user_id, identity_data, provider, created_at, last_sign_in_at, updated_at⟩

/-- Derived serde Deserialize for User, mirroring the field list of
src/user.rs: id, aud and created_at are required strings, the metadata
fields accept any JSON value, the rest are optional. -/
def User.fromValue (v : Json) : Option User :=
  obind (decodeReq Json.asString (v.getField "id")) fun id =>
  obind (v.getField "app_metadata") fun app_metadata =>
  obind (v.getField "user_metadata") fun user_metadata =>
  obind (decodeReq Json.asString (v.getField "aud")) fun aud =>
  obind (decodeOpt Json.asString (v.getField "confirmation_sent_at")) fun confirmation_sent_at =>
  obind (decodeOpt Json.asString (v.getField "recovery_sent_at")) fun recovery_sent_at =>
  obind (decodeOpt Json.asString (v.getField "email_change_sent_at")) fun email_change_sent_at =>
  obind (decodeOpt Json.asString (v.getField "new_email")) fun new_email =>
  obind (decodeOpt Json.asString (v.getField "invited_at")) fun invited_at =>
  obind (decodeOpt Json.asString (v.getField "action_link")) fun action_link =>
  obind (decodeOpt Json.asString (v.getField "email")) fun email =>
  obind (decodeOpt Json.asString (v.getField "phone")) fun phone =>
  obind (decodeReq Json.asString (v.getField "created_at")) fun created_at =>
  obind (decodeOpt Json.asString (v.getField "confirmed_at")) fun confirmed_at =>
  obind (decodeOpt Json.asString (v.getField "email_confirmed_at")) fun email_confirmed_at =>
  obind (decodeOpt Json.asString (v.getField "phone_confirmed_at")) fun phone_confirmed_at =>
  obind (decodeOpt Json.asString (v.getField "last_sign_in_at")) fun last_sign_in_at =>
  obind (decodeOpt Json.asString (v.getField "role")) fun role =>
  obind (decodeOpt Json.asString (v.getField "updated_at")) fun updated_at =>
  obind (decodeOpt (decodeList UserIdentity.fromValue) (v.getField "identities")) fun identities =>
  some ⟨id, app_metadata, user_metadata, aud, confirmation_sent_at, recovery_sent_at,
        email_change_sent_at, new_email, invited_at, action_link, email, phone,
        created_at, confirmed_at, email_confirmed_at, phone_confirmed_at,
        last_sign_in_at, role, updated_at, identities⟩

/-- Derived serde Deserialize for Session, mirroring src/session.rs:
access_token and token_type are required strings, the rest optional. -/
def Session.fromValue (v : Json) : Option Session :=
  obind (decodeOpt Json.asString (v.getField "provider_token")) fun provider_token =>
  obind (decodeReq Json.asString (v.getField "access_token")) fun access_token =>
  obind (decodeReq Json.asString (v.getField "token_type")) fun token_type =>
  obind (decodeOpt Json.asInt32 (v.getField "expires_in")) fun expires_in =>
  obind (decodeOpt Json.asString (v.getField "refresh_token")) fun refresh_token =>
  obind (decodeOpt User.fromValue (v.getField "user")) fun user =>
  some ⟨provider_token, access_token, token_type, expires_in, refresh_token, user⟩

/-- Modelled from the spec: EmailOrPhone lives in the Api module (api.rs,
not under src/); per spec section 3 it is a discriminated identifier,
exactly one of email or phone. -/
inductive EmailOrPhone where
  | email : String → EmailOrPhone
  | phone : String → EmailOrPhone
deriving Repr

/-- Modelled from the spec: the Api struct (api.rs, not under src/) is the
Gateway bound to a single base URL; only its construction from a URL is
relevant to the client. -/
structure Api where
  url : String
deriving Repr

/-- Modelled from the spec: Api.new, the Gateway constructor used by
Client.new. -/
def Api.new (url : String) : Api := ⟨url⟩

/-- Transport error returned by the Gateway (reqwest::Error as used in
client.rs): either a structured HTTP error carrying a status code, for
which is_status() is true and status() is some, or any other transport
failure. -/
inductive ApiError where
  | status : Nat → ApiError
  | transport : ApiError
deriving Repr

/-- The check performed in client.rs on a transport error e:
e.is_status() && e.status().unwrap().as_str() == s.  When the error holds
no status code, is_status() is false and the conjunction short-circuits. -/
def ApiError.checkStatus (e : ApiError) (s : String) : Bool :=
  match e with
  | .status code => toString code == s
  | .transport => false

/-- Result of one Gateway operation: the decoded success value or a
transport error. -/
abbrev ApiResult (α : Type) := Except ApiError α

/-- Error enum of the crate's error module (error.rs is declared in lib.rs
but not under src/; the variants are the ones client.rs constructs).  The
spec's taxonomy names them AlreadyRegistered, InvalidCredentials,
AccountNotFound, InvalidToken, Unauthenticated, MissingRefreshToken and
Internal respectively. -/
inductive Error where
  | AlreadySignedUp
  | WrongCredentials
  | UserNotFound
  | WrongToken
  | NotAuthenticated
  | MissingRefreshToken
  | InternalError
deriving Repr, DecidableEq

/-- Client from src/client.rs: the Session Manager state. -/
structure Client where
  api : Api
  current_user : Option User
  current_session : Option Session
deriving Repr

/-- One Gateway operation together with the arguments client.rs passes to
it (the api.* call sites in client.rs). -/
inductive GatewayCall where
  | signUp : EmailOrPhone → String → GatewayCall
  | signIn : EmailOrPhone → String → GatewayCall
  | sendOtp : EmailOrPhone → Option Bool → GatewayCall
  | verifyOtp : Json → GatewayCall
  | signOut : String → GatewayCall
  | resetPasswordForEmail : String → GatewayCall
  | updateUser : UserAttributes → String → GatewayCall
  | refreshAccessToken : String → GatewayCall
deriving Repr

/-- A Gateway invocation as recorded by the embedding: the Gateway call
made, together with the client state at the moment the call was issued. -/
structure GatewayEvent where
  stateAtCall : Client
  call : GatewayCall
deriving Repr

/-- SignUp from the return_data module of src/client.rs. -/
structure SignUp where
  user : Option User
  session : Option Session
deriving Repr

/-- SignIn from the return_data module of src/client.rs; url and provider
are filled by Default::default() in the sign_in success path. -/
structure SignIn where
  user : Option User
  session : Option Session
  url : Option String
  provider : Option String
deriving Repr

/-- Client::new from src/client.rs. -/
def Client.new (url : String) : Client :=
  { api := Api.new url, current_user := none, current_session := none }

/-- Client::remove_session from src/client.rs. -/
def Client.remove_session (c : Client) : Client :=
  { c with current_session := none }

/-- Client::user from src/client.rs: read accessor on the user cache. -/
def Client.user (c : Client) : Option User :=
  c.current_user

/-- Client::session from src/client.rs: read accessor on the session. -/
def Client.session (c : Client) : Option Session :=
  c.current_session

/-- Client::sign_up from src/client.rs.  The response parameter is the
value api.sign_up returns for the one Gateway call the operation makes;
the returned event list records that call and the state it was made in. -/
def Client.sign_up (c : Client) (email_or_phone : EmailOrPhone) (password : String)
    (response : ApiResult Json) : Except Error SignUp × Client × List GatewayEvent :=
  let c := c.remove_session
  let ev : GatewayEvent := ⟨c, .signUp email_or_phone password⟩
  match response with
  | .ok result =>
      let session := Session.fromValue result
      let user := User.fromValue result
      (.ok { session := session, user := user },
       { c with current_session := session }, [ev])
  | .error e =>
      if e.checkStatus "400" then
        (.error .AlreadySignedUp, c, [ev])
      else
        (.error .InternalError, c, [ev])

/-- Client::sign_in from src/client.rs. -/
def Client.sign_in (c : Client) (email_or_phone : EmailOrPhone) (password : String)
    (response : ApiResult Json) : Except Error SignIn × Client × List GatewayEvent :=
  let c := c.remove_session
  let ev : GatewayEvent := ⟨c, .signIn email_or_phone password⟩
  match response with
  | .ok result =>
      let session := Session.fromValue result
      let user := User.fromValue result
      (.ok { session := session, user := user, url := none, provider := none },
       { c with current_session := session }, [ev])
  | .error e =>
      if e.checkStatus "400" then
        (.error .WrongCredentials, c, [ev])
      else
        (.error .InternalError, c, [ev])

/-- Client::send_otp from src/client.rs (takes the client by shared
reference: no state change). -/
def Client.send_otp (c : Client) (email_or_phone : EmailOrPhone)
    (should_create_user : Option Bool) (response : ApiResult Unit) :
    Except Error Bool × Client × List GatewayEvent :=
  let ev : GatewayEvent := ⟨c, .sendOtp email_or_phone should_create_user⟩
  match response with
  | .ok _ => (.ok true, c, [ev])
  | .error e =>
      if e.checkStatus "422" then
        (.error .UserNotFound, c, [ev])
      else
        (.error .InternalError, c, [ev])

/-- Client::verify_otp from src/client.rs.  The serializable params value
is modelled as a JSON payload per spec section 9. -/
def Client.verify_otp (c : Client) (params : Json) (response : ApiResult Unit) :
    Except Error Bool × Client × List GatewayEvent :=
  let c := { c with current_session := none }
  let ev : GatewayEvent := ⟨c, .verifyOtp params⟩
  match response with
  | .ok _ => (.ok true, c, [ev])
  | .error e =>
      if e.checkStatus "400" then
        (.error .WrongToken, c, [ev])
      else
        (.error .InternalError, c, [ev])

/-- Client::sign_out from src/client.rs (shared reference: no state
change; with no held session it returns before contacting the Gateway). -/
def Client.sign_out (c : Client) (response : ApiResult Unit) :
    Except Error Bool × Client × List GatewayEvent :=
  match c.current_session with
  | some session =>
      let ev : GatewayEvent := ⟨c, .signOut session.access_token⟩
      (match response with
       | .ok _ => (.ok true, c, [ev])
       | .error _ => (.error .InternalError, c, [ev]))
  | none => (.error .NotAuthenticated, c, [])

/-- Client::reset_password_for_email from src/client.rs. -/
def Client.reset_password_for_email (c : Client) (email : String)
    (response : ApiResult Unit) : Except Error Bool × Client × List GatewayEvent :=
  let ev : GatewayEvent := ⟨c, .resetPasswordForEmail email⟩
  match response with
  | .ok _ => (.ok true, c, [ev])
  | .error _ => (.error .UserNotFound, c, [ev])

/-- Client::update_user from src/client.rs. -/
def Client.update_user (c : Client) (user : UserAttributes)
    (response : ApiResult UserUpdate) :
    Except Error UserUpdate × Client × List GatewayEvent :=
  match c.current_session with
  | some s =>
      let ev : GatewayEvent := ⟨c, .updateUser user s.access_token⟩
      (match response with
       | .ok u => (.ok u, c, [ev])
       | .error e =>
           if e.checkStatus "400" then
             (.error .UserNotFound, c, [ev])
           else
             (.error .InternalError, c, [ev]))
  | none => (.error .NotAuthenticated, c, [])

/-- Client::refresh_session from src/client.rs: first the is_none guard,
then the match whose catch-all arm returns MissingRefreshToken, then the
Gateway call on the held refresh token, then the wholesale replacement of
the session on success. -/
def Client.refresh_session (c : Client) (response : ApiResult Session) :
    Except Error Session × Client × List GatewayEvent :=
  if c.current_session.isNone then
    (.error .NotAuthenticated, c, [])
  else
    match c.current_session with
    | some ⟨_, _, _, _, some refresh_token, _⟩ =>
        let ev : GatewayEvent := ⟨c, .refreshAccessToken refresh_token⟩
        (match response with
         | .ok session =>
             (.ok session, { c with current_session := some session }, [ev])
         | .error _ => (.error .InternalError, c, [ev]))
    | _ => (.error .MissingRefreshToken, c, [])

/-- Client::set_session from src/client.rs: the len() < 1 guard on the
token, then the Gateway call, then the wholesale replacement of the
session on success. -/
def Client.set_session (c : Client) (refresh_token : String)
    (response : ApiResult Session) :
    Except Error Session × Client × List GatewayEvent :=
  if refresh_token.length < 1 then
    (.error .NotAuthenticated, c, [])
  else
    let ev : GatewayEvent := ⟨c, .refreshAccessToken refresh_token⟩
    match response with
    | .ok session =>
        (.ok session, { c with current_session := some session }, [ev])
    | .error _ => (.error .InternalError, c, [ev])

/-- The spec's session invariant: the held session is either fully absent
or carries a non-empty access token. -/
def sessionInv (c : Client) : Prop :=
  ∀ s, c.current_session = some s → s.access_token ≠ ""

/-- Helper: verify_otp leaves the session absent in every branch. -/
theorem verify_otp_session_none (c : Client) (params : Json) (r : ApiResult Unit) :
    (c.verify_otp params r).2.1.current_session = none := by
  unfold Client.verify_otp
  cases r with
  | ok _ => rfl
  | error e => by_cases hb : e.checkStatus "400" = true <;> simp [hb]

/-- Helper: send_otp returns the client state unchanged in every branch. -/
theorem send_otp_state_eq (c : Client) (eop : EmailOrPhone) (scu : Option Bool)
    (r : ApiResult Unit) : (c.send_otp eop scu r).2.1 = c := by
  unfold Client.send_otp
  cases r with
  | ok _ => rfl
  | error e => by_cases hb : e.checkStatus "422" = true <;> simp [hb]

/-- Helper: sign_out returns the client state unchanged in every branch. -/
theorem sign_out_state_eq (c : Client) (r : ApiResult Unit) :
    (c.sign_out r).2.1 = c := by
  unfold Client.sign_out
  rcases hcs : c.current_session with _ | s <;> cases r <;> simp

/-- Helper: reset_password_for_email returns the state unchanged. -/
theorem reset_password_state_eq (c : Client) (email : String)
    (r : ApiResult Unit) : (c.reset_password_for_email email r).2.1 = c := by
  unfold Client.reset_password_for_email
  cases r <;> rfl

/-- Helper: update_user returns the client state unchanged in every
branch. -/
theorem update_user_state_eq (c : Client) (ua : UserAttributes)
    (r : ApiResult UserUpdate) : (c.update_user ua r).2.1 = c := by
  unfold Client.update_user
  rcases hcs : c.current_session with _ | s
  · rfl
  · cases r with
    | ok _ => rfl
    | error e => by_cases hb : e.checkStatus "400" = true <;> simp [hb]

/-- Helper: the session held after sign_up is the one decoded from the
Gateway success payload, and absent on failure. -/
theorem sign_up_state_session (c : Client) (eop : EmailOrPhone) (pw : String)
    (rj : ApiResult Json) :
    (c.sign_up eop pw rj).2.1.current_session = rj.toOption.bind Session.fromValue := by
  unfold Client.sign_up
  cases rj with
  | ok j => simp [Except.toOption]
  | error e =>
      by_cases hb : e.checkStatus "400" = true <;>
        simp [hb, Except.toOption, Client.remove_session]

/-- Helper: the session held after sign_in is the one decoded from the
Gateway success payload, and absent on failure. -/
theorem sign_in_state_session (c : Client) (eop : EmailOrPhone) (pw : String)
    (rj : ApiResult Json) :
    (c.sign_in eop pw rj).2.1.current_session = rj.toOption.bind Session.fromValue := by
  unfold Client.sign_in
  cases rj with
  | ok j => simp [Except.toOption]
  | error e =>
      by_cases hb : e.checkStatus "400" = true <;>
        simp [hb, Except.toOption, Client.remove_session]

/-- Helper: sign_up never touches the user cache. -/
theorem sign_up_user_frame (c : Client) (eop : EmailOrPhone) (pw : String)
    (rj : ApiResult Json) : (c.sign_up eop pw rj).2.1.current_user = c.current_user := by
  unfold Client.sign_up
  cases rj with
  | ok j => rfl
  | error e =>
      by_cases hb : e.checkStatus "400" = true <;> simp [hb, Client.remove_session]

/-- Helper: sign_in never touches the user cache. -/
theorem sign_in_user_frame (c : Client) (eop : EmailOrPhone) (pw : String)
    (rj : ApiResult Json) : (c.sign_in eop pw rj).2.1.current_user = c.current_user := by
  unfold Client.sign_in
  cases rj with
  | ok j => rfl
  | error e =>
      by_cases hb : e.checkStatus "400" = true <;> simp [hb, Client.remove_session]

/-- Helper: verify_otp never touches the user cache. -/
theorem verify_otp_user_frame (c : Client) (params : Json) (r : ApiResult Unit) :
    (c.verify_otp params r).2.1.current_user = c.current_user := by
  unfold Client.verify_otp
  cases r with
  | ok _ => rfl
  | error e => by_cases hb : e.checkStatus "400" = true <;> simp [hb]

/-- Helper: the full outcome of refresh_session is one of: state
unchanged, or the Gateway's success session stored wholesale. -/
theorem refresh_session_state_cases (c : Client) (rs : ApiResult Session) :
    (c.refresh_session rs).2.1 = c
    ∨ ∃ s, rs = .ok s ∧ (c.refresh_session rs).2.1 = { c with current_session := some s } := by
  unfold Client.refresh_session
  rcases hcs : c.current_session with _ | s
  · left; simp
  · obtain ⟨pt, a, tt, ei, rt, u⟩ := s
    cases rt with
    | none => left; simp
    | some rt0 =>
        cases rs with
        | ok s2 => right; exact ⟨s2, rfl, by simp⟩
        | error e => left; simp

/-- Helper: the full outcome of set_session is one of: state unchanged,
or the Gateway's success session stored wholesale. -/
theorem set_session_state_cases (c : Client) (t : String) (rs : ApiResult Session) :
    (c.set_session t rs).2.1 = c
    ∨ ∃ s, rs = .ok s ∧ (c.set_session t rs).2.1 = { c with current_session := some s } := by
  unfold Client.set_session
  by_cases hl : t.length < 1
  · left; simp [hl]
  · cases rs with
    | ok s2 => right; exact ⟨s2, rfl, by simp [hl]⟩
    | error e => left; simp [hl]

/-- Helper: refresh_session never touches the user cache. -/
theorem refresh_session_user_frame (c : Client) (rs : ApiResult Session) :
    (c.refresh_session rs).2.1.current_user = c.current_user := by
  rcases refresh_session_state_cases c rs with h | ⟨s, _, h⟩ <;> rw [h]

/-- Helper: set_session never touches the user cache. -/
theorem set_session_user_frame (c : Client) (t : String) (rs : ApiResult Session) :
    (c.set_session t rs).2.1.current_user = c.current_user := by
  rcases set_session_state_cases c t rs with h | ⟨s, _, h⟩ <;> rw [h]

/-- C2: with no held session, sign_out, update_user and refresh_session
each return the NotAuthenticated error (the spec's Unauthenticated)
immediately, perform no Gateway call, and leave the state unchanged. -/
theorem precondition_short_circuit (c : Client) (h : c.current_session = none)
    (ua : UserAttributes) (ru : ApiResult Unit) (rU : ApiResult UserUpdate)
    (rs : ApiResult Session) :
    c.sign_out ru = (.error .NotAuthenticated, c, [])
    ∧ c.update_user ua rU = (.error .NotAuthenticated, c, [])
    ∧ c.refresh_session rs = (.error .NotAuthenticated, c, []) := by
  unfold Client.sign_out Client.update_user Client.refresh_session
  rw [h]
  simp

/-- Witness for C2 at a freshly constructed client. -/
theorem precondition_short_circuit_witness :
    (Client.new "http://h").sign_out (.error .transport)
      = (.error .NotAuthenticated, Client.new "http://h", [])
    ∧ (Client.new "http://h").update_user ⟨none, none, none, none, none⟩ (.error .transport)
      = (.error .NotAuthenticated, Client.new "http://h", [])
    ∧ (Client.new "http://h").refresh_session (.error .transport)
      = (.error .NotAuthenticated, Client.new "http://h", []) :=
  precondition_short_circuit (Client.new "http://h") rfl
    ⟨none, none, none, none, none⟩ (.error .transport) (.error .transport)
    (.error .transport)

/-- C3: a held session whose refresh token is absent makes refresh_session
return MissingRefreshToken with no Gateway call and no state change. -/
theorem refresh_token_requirement (c : Client) (s : Session)
    (h : c.current_session = some s) (hrt : s.refresh_token = none)
    (rs : ApiResult Session) :
    c.refresh_session rs = (.error .MissingRefreshToken, c, []) := by
  obtain ⟨pt, a, tt, ei, rt, u⟩ := s
  unfold Client.refresh_session
  rw [h]
  cases rt with
  | none => simp
  | some rt0 => simp at hrt

/-- Witness for C3: a client holding a session without a refresh token. -/
theorem refresh_token_requirement_witness :
    Client.refresh_session
        { api := Api.new "http://h", current_user := none,
          current_session := some ⟨none, "tok", "bearer", none, none, none⟩ }
        (.ok ⟨none, "t2", "bearer", none, none, none⟩)
      = (.error .MissingRefreshToken,
         { api := Api.new "http://h", current_user := none,
           current_session := some ⟨none, "tok", "bearer", none, none, none⟩ }, []) :=
  refresh_token_requirement _ ⟨none, "tok", "bearer", none, none, none⟩ rfl rfl _

/-- C5: when refresh_session succeeds, the Gateway's returned session
replaces the held one wholesale (no field is merged or retained from the
previous session) and is also the value returned to the caller. -/
theorem refresh_replaces_session_wholesale (c : Client) (s : Session) (rt : String)
    (h : c.current_session = some s) (hrt : s.refresh_token = some rt)
    (news : Session) :
    c.refresh_session (.ok news)
      = (.ok news, { c with current_session := some news },
         [⟨c, .refreshAccessToken rt⟩]) := by
  obtain ⟨pt, a, tt, ei, rt0, u⟩ := s
  simp only [Session.refresh_token] at hrt
  subst hrt
  unfold Client.refresh_session
  rw [h]
  simp

/-- Witness for C5 at a concrete held session and Gateway session. -/
theorem refresh_replaces_session_wholesale_witness :
    Client.refresh_session
        { api := Api.new "http://h", current_user := none,
          current_session := some ⟨none, "t1", "bearer", some 10, some "r1", none⟩ }
        (.ok ⟨none, "t2", "bearer", none, none, none⟩)
      = (.ok ⟨none, "t2", "bearer", none, none, none⟩,
         { api := Api.new "http://h", current_user := none,
           current_session := some ⟨none, "t2", "bearer", none, none, none⟩ },
         [⟨{ api := Api.new "http://h", current_user := none,
             current_session := some ⟨none, "t1", "bearer", some 10, some "r1", none⟩ },
           .refreshAccessToken "r1"⟩]) :=
  refresh_replaces_session_wholesale _ ⟨none, "t1", "bearer", some 10, some "r1", none⟩
    "r1" rfl rfl _

/-- C7: verify_otp never stores a session: whatever the prior state and
the Gateway outcome, the session is absent when it returns. -/
theorem verify_otp_never_stores_session (c : Client) (params : Json)
    (r : ApiResult Unit) :
    (c.verify_otp params r).2.1.current_session = none :=
  verify_otp_session_none c params r

/-- C8: with a session held, sign_out leaves the whole client state (in
particular the held session) unchanged on every outcome, including a
Gateway-confirmed successful sign-out. -/
theorem sign_out_preserves_held_session (c : Client) (s : Session)
    (h : c.current_session = some s) (r : ApiResult Unit) :
    (c.sign_out r).2.1 = c ∧ (c.sign_out (.ok ())).1 = .ok true := by
  unfold Client.sign_out
  rw [h]
  cases r <;> simp

/-- Witness for C8 at a concrete held session. -/
theorem sign_out_preserves_held_session_witness :
    (Client.sign_out
        { api := Api.new "http://h", current_user := none,
          current_session := some ⟨none, "tok", "bearer", none, none, none⟩ }
        (.ok ())).2.1
      = { api := Api.new "http://h", current_user := none,
          current_session := some ⟨none, "tok", "bearer", none, none, none⟩ }
    ∧ (Client.sign_out
        { api := Api.new "http://h", current_user := none,
          current_session := some ⟨none, "tok", "bearer", none, none, none⟩ }
        (.ok ())).1 = .ok true :=
  sign_out_preserves_held_session _ ⟨none, "tok", "bearer", none, none, none⟩ rfl _

/-- C1: sign_up, sign_in and verify_otp clear the held session before the
Gateway is contacted (every recorded Gateway call sees an absent session),
and after the call the session is absent on every failure outcome and
equals the session the call itself stored on success (for verify_otp it
is absent on every outcome). -/
theorem preclear_invariant (c : Client) (eop : EmailOrPhone) (pw : String)
    (params : Json) (rj rj2 : ApiResult Json) (ru : ApiResult Unit) :
    ((c.sign_up eop pw rj).2.2.all fun ev => ev.stateAtCall.current_session.isNone) = true
    ∧ ((c.sign_in eop pw rj2).2.2.all fun ev => ev.stateAtCall.current_session.isNone) = true
    ∧ ((c.verify_otp params ru).2.2.all fun ev => ev.stateAtCall.current_session.isNone) = true
    ∧ (c.sign_up eop pw rj).2.1.current_session
        = ((c.sign_up eop pw rj).1.toOption.bind fun d => d.session)
    ∧ (c.sign_in eop pw rj2).2.1.current_session
        = ((c.sign_in eop pw rj2).1.toOption.bind fun d => d.session)
    ∧ (c.verify_otp params ru).2.1.current_session = none := by
  refine ⟨?_, ?_, ?_, ?_, ?_, verify_otp_session_none c params ru⟩
  · unfold Client.sign_up
    cases rj with
    | ok j => simp [Client.remove_session]
    | error e =>
        by_cases hb : e.checkStatus "400" = true <;> simp [hb, Client.remove_session]
  · unfold Client.sign_in
    cases rj2 with
    | ok j => simp [Client.remove_session]
    | error e =>
        by_cases hb : e.checkStatus "400" = true <;> simp [hb, Client.remove_session]
  · unfold Client.verify_otp
    cases ru with
    | ok u => simp
    | error e => by_cases hb : e.checkStatus "400" = true <;> simp [hb]
  · unfold Client.sign_up
    cases rj with
    | ok j => simp [Except.toOption]
    | error e =>
        by_cases hb : e.checkStatus "400" = true <;>
          simp [hb, Except.toOption, Client.remove_session]
  · unfold Client.sign_in
    cases rj2 with
    | ok j => simp [Except.toOption]
    | error e =>
        by_cases hb : e.checkStatus "400" = true <;>
          simp [hb, Except.toOption, Client.remove_session]

/-- C4: sign_in maps a structured HTTP 400 failure to WrongCredentials
(the spec's InvalidCredentials), send_otp maps HTTP 422 to UserNotFound
(the spec's AccountNotFound), and every other status code, as well as a
status-less transport failure, maps to InternalError on both. -/
theorem status_mapping (c : Client) (eop : EmailOrPhone) (pw : String)
    (scu : Option Bool) (n : Nat)
    (hn400 : toString n ≠ "400") (hn422 : toString n ≠ "422") :
    (c.sign_in eop pw (.error (.status 400))).1 = .error .WrongCredentials
    ∧ (c.send_otp eop scu (.error (.status 422))).1 = .error .UserNotFound
    ∧ (c.sign_in eop pw (.error (.status n))).1 = .error .InternalError
    ∧ (c.send_otp eop scu (.error (.status n))).1 = .error .InternalError
    ∧ (c.sign_in eop pw (.error .transport)).1 = .error .InternalError
    ∧ (c.send_otp eop scu (.error .transport)).1 = .error .InternalError := by
  have h400 : toString (400 : Nat) = "400" := by decide
  have h422 : toString (422 : Nat) = "422" := by decide
  unfold Client.sign_in Client.send_otp
  simp [ApiError.checkStatus, hn400, hn422, h400, h422]

/-- Witness for C4 with status code 500 as the other status. -/
theorem status_mapping_witness :
    ((Client.new "http://h").sign_in (.email "a@b.c") "pw"
        (.error (.status 400))).1 = .error .WrongCredentials
    ∧ ((Client.new "http://h").send_otp (.email "a@b.c") none
        (.error (.status 422))).1 = .error .UserNotFound
    ∧ ((Client.new "http://h").sign_in (.email "a@b.c") "pw"
        (.error (.status 500))).1 = .error .InternalError
    ∧ ((Client.new "http://h").send_otp (.email "a@b.c") none
        (.error (.status 500))).1 = .error .InternalError
    ∧ ((Client.new "http://h").sign_in (.email "a@b.c") "pw"
        (.error .transport)).1 = .error .InternalError
    ∧ ((Client.new "http://h").send_otp (.email "a@b.c") none
        (.error .transport)).1 = .error .InternalError :=
  status_mapping (Client.new "http://h") (.email "a@b.c") "pw" none 500
    (by decide) (by decide)

/-- C6: set_session on the empty token returns NotAuthenticated (the
spec's Unauthenticated) with no Gateway call and no state change; on a
non-empty token it stores and returns the Gateway's session on success
and returns InternalError on Gateway failure. -/
theorem set_session_token_spec (c : Client) (t : String) (ht : t ≠ "")
    (s : Session) (e : ApiError) (rs : ApiResult Session) :
    c.set_session "" rs = (.error .NotAuthenticated, c, [])
    ∧ c.set_session t (.ok s)
        = (.ok s, { c with current_session := some s },
           [⟨c, .refreshAccessToken t⟩])
    ∧ c.set_session t (.error e)
        = (.error .InternalError, c, [⟨c, .refreshAccessToken t⟩]) := by
  have hlen : ¬ t.length < 1 := by
    simp [Nat.lt_one_iff]
    exact fun h0 => ht (by
      cases t with
      | mk data =>
          simp [String.length] at h0
          simp [h0])
  unfold Client.set_session
  simp [hlen]

/-- Witness for C6 at the token "validtoken". -/
theorem set_session_token_spec_witness :
    (Client.new "http://h").set_session "" (.error .transport)
      = (.error .NotAuthenticated, Client.new "http://h", [])
    ∧ (Client.new "http://h").set_session "validtoken"
        (.ok ⟨none, "t2", "bearer", none, none, none⟩)
      = (.ok ⟨none, "t2", "bearer", none, none, none⟩,
         { Client.new "http://h" with
             current_session := some ⟨none, "t2", "bearer", none, none, none⟩ },
         [⟨Client.new "http://h", .refreshAccessToken "validtoken"⟩])
    ∧ (Client.new "http://h").set_session "validtoken" (.error .transport)
      = (.error .InternalError, Client.new "http://h",
         [⟨Client.new "http://h", .refreshAccessToken "validtoken"⟩]) :=
  set_session_token_spec (Client.new "http://h") "validtoken" (by decide)
    ⟨none, "t2", "bearer", none, none, none⟩ .transport (.error .transport)

/-- A Gateway success session whose access token is the empty string; the
client stores it unchecked. -/
def emptyTokenSession : Session := ⟨none, "", "bearer", none, none, none⟩

/-- C9 counterexample: the session invariant is not preserved by
set_session, because the client never checks the access token returned by
the Gateway: from the freshly constructed client (whose session is
absent, so the invariant holds), one set_session call whose Gateway
response carries an empty access token yields a state holding a session
whose access token is the empty string, violating the invariant. -/
theorem session_invariant_counterexample :
    (Client.new "http://h").current_session = none
    ∧ ((Client.new "http://h").set_session "r"
        (.ok emptyTokenSession)).2.1.current_session = some emptyTokenSession
    ∧ emptyTokenSession.access_token = "" :=
  ⟨rfl, rfl, rfl⟩

/-- C9 amended: provided every session the Gateway hands back — directly
for refresh_session and set_session, or decoded from the success payload
for sign_up and sign_in — has a non-empty access token, the session
invariant holds of the freshly constructed client and is preserved by
every operation of the public surface. -/
theorem session_invariant_amended (url : String) (c : Client)
    (hc : sessionInv c)
    (eop : EmailOrPhone) (pw : String) (scu : Option Bool) (params : Json)
    (email : String) (ua : UserAttributes) (t : String)
    (rj rj2 : ApiResult Json) (ru1 ru2 ru3 ru4 : ApiResult Unit)
    (rU : ApiResult UserUpdate) (rs1 rs2 : ApiResult Session)
    (hj : ∀ j s, rj = .ok j → Session.fromValue j = some s → s.access_token ≠ "")
    (hj2 : ∀ j s, rj2 = .ok j → Session.fromValue j = some s → s.access_token ≠ "")
    (hs1 : ∀ s, rs1 = .ok s → s.access_token ≠ "")
    (hs2 : ∀ s, rs2 = .ok s → s.access_token ≠ "") :
    sessionInv (Client.new url)
    ∧ sessionInv (c.sign_up eop pw rj).2.1
    ∧ sessionInv (c.sign_in eop pw rj2).2.1
    ∧ sessionInv (c.send_otp eop scu ru1).2.1
    ∧ sessionInv (c.verify_otp params ru2).2.1
    ∧ sessionInv (c.sign_out ru3).2.1
    ∧ sessionInv (c.reset_password_for_email email ru4).2.1
    ∧ sessionInv (c.update_user ua rU).2.1
    ∧ sessionInv (c.refresh_session rs1).2.1
    ∧ sessionInv (c.set_session t rs2).2.1 := by
  refine ⟨?_, ?_, ?_, ?_, ?_, ?_, ?_, ?_, ?_, ?_⟩
  · intro s h
    simp [Client.new] at h
  · intro s hs
    rw [sign_up_state_session] at hs
    cases rj with
    | ok j => exact hj j s rfl (by simpa [Except.toOption] using hs)
    | error e => simp [Except.toOption] at hs
  · intro s hs
    rw [sign_in_state_session] at hs
    cases rj2 with
    | ok j => exact hj2 j s rfl (by simpa [Except.toOption] using hs)
    | error e => simp [Except.toOption] at hs
  · intro s hs
    rw [send_otp_state_eq] at hs
    exact hc s hs
  · intro s hs
    rw [verify_otp_session_none] at hs
    cases hs
  · intro s hs
    rw [sign_out_state_eq] at hs
    exact hc s hs
  · intro s hs
    rw [reset_password_state_eq] at hs
    exact hc s hs
  · intro s hs
    rw [update_user_state_eq] at hs
    exact hc s hs
  · rcases refresh_session_state_cases c rs1 with h | ⟨s2, hok, h⟩
    · intro s hs
      rw [h] at hs
      exact hc s hs
    · intro s hs
      rw [h] at hs
      simp at hs
      subst hs
      exact hs1 s2 hok
  · rcases set_session_state_cases c t rs2 with h | ⟨s2, hok, h⟩
    · intro s hs
      rw [h] at hs
      exact hc s hs
    · intro s hs
      rw [h] at hs
      simp at hs
      subst hs
      exact hs2 s2 hok

/-- Witness for the amended C9 at a fresh client with Gateway failures on
every operation. -/
theorem session_invariant_amended_witness :
    sessionInv (Client.new "http://h")
    ∧ sessionInv ((Client.new "http://u").sign_up (.email "a@b.c") "pw"
        (.error .transport)).2.1
    ∧ sessionInv ((Client.new "http://u").sign_in (.email "a@b.c") "pw"
        (.error .transport)).2.1
    ∧ sessionInv ((Client.new "http://u").send_otp (.email "a@b.c") none
        (.error .transport)).2.1
    ∧ sessionInv ((Client.new "http://u").verify_otp .null
        (.error .transport)).2.1
    ∧ sessionInv ((Client.new "http://u").sign_out (.error .transport)).2.1
    ∧ sessionInv ((Client.new "http://u").reset_password_for_email "a@b.c"
        (.error .transport)).2.1
    ∧ sessionInv ((Client.new "http://u").update_user ⟨none, none, none, none, none⟩
        (.error .transport)).2.1
    ∧ sessionInv ((Client.new "http://u").refresh_session (.error .transport)).2.1
    ∧ sessionInv ((Client.new "http://u").set_session "r" (.error .transport)).2.1 :=
  session_invariant_amended "http://h" (Client.new "http://u")
    (fun s h => by simp [Client.new] at h)
    (.email "a@b.c") "pw" none .null "a@b.c" ⟨none, none, none, none, none⟩ "r"
    (.error .transport) (.error .transport) (.error .transport) (.error .transport)
    (.error .transport) (.error .transport) (.error .transport) (.error .transport)
    (.error .transport)
    (fun j s h _ => by cases h) (fun j s h _ => by cases h)
    (fun s h => by cases h) (fun s h => by cases h)

/-- C10: the user cache is never populated: it is absent on construction,
the user accessor reads it directly, and no operation of the public
surface writes to it. -/
theorem current_user_never_populated (url : String) (c : Client)
    (eop : EmailOrPhone) (pw : String) (scu : Option Bool) (params : Json)
    (email : String) (ua : UserAttributes) (t : String)
    (rj rj2 : ApiResult Json) (ru1 ru2 ru3 ru4 : ApiResult Unit)
    (rU : ApiResult UserUpdate) (rs1 rs2 : ApiResult Session) :
    (Client.new url).current_user = none
    ∧ c.user = c.current_user
    ∧ (c.sign_up eop pw rj).2.1.current_user = c.current_user
    ∧ (c.sign_in eop pw rj2).2.1.current_user = c.current_user
    ∧ (c.send_otp eop scu ru1).2.1.current_user = c.current_user
    ∧ (c.verify_otp params ru2).2.1.current_user = c.current_user
    ∧ (c.sign_out ru3).2.1.current_user = c.current_user
    ∧ (c.reset_password_for_email email ru4).2.1.current_user = c.current_user
    ∧ (c.update_user ua rU).2.1.current_user = c.current_user
    ∧ (c.refresh_session rs1).2.1.current_user = c.current_user
    ∧ (c.set_session t rs2).2.1.current_user = c.current_user :=
  ⟨rfl, rfl,
   sign_up_user_frame c eop pw rj,
   sign_in_user_frame c eop pw rj2,
   by rw [send_otp_state_eq],
   verify_otp_user_frame c params ru2,
   by rw [sign_out_state_eq],
   by rw [reset_password_state_eq],
   by rw [update_user_state_eq],
   refresh_session_user_frame c rs1,
   set_session_user_frame c t rs2⟩

end GoTrue
